import Mathlib

/-
Verification of the attendance ledger client of this repository
(src/app.py).  The functions `process_student_scan` and
`detect_qr_with_opencv` are shallowly embedded below; spreadsheet cell
writes are reified as explicit write operations, and the single
`get_all_records` snapshot read plus the `update_cell` calls issued by
one scan are reified as a store-call trace.
-/

/-- A Python value as it comes back from `sheet.get_all_records()`:
gspread returns a string or, for numeric-looking cells, an int.
`process_student_scan` compares IDs via Python `str(...)`. -/
inductive PyVal where
  | str (s : String)
  | int (n : Int)
deriving DecidableEq, Inhabited

/-- Python `str(...)` on such a value. -/
def pyStr : PyVal → String
  | .str s => s
  | .int n => toString n

/-- One row of the sheet as returned by `get_all_records()` (header row
excluded): fields ID, Name, Branch, EntryStatus, EntryTime, ExitStatus,
ExitTime, occupying columns 1-7 of the sheet. -/
structure Record where
  ID : PyVal
  Name : String
  Branch : String
  EntryStatus : String
  EntryTime : String
  ExitStatus : String
  ExitTime : String
deriving DecidableEq, Inhabited

/-- The user-visible outcome of one scan (st.success / st.warning /
st.info / st.error branches of `process_student_scan`). -/
inductive Outcome where
  | EntryMarked (name branch : String)
  | ExitMarked (name branch : String)
  | AlreadyProcessed (name branch entryTime exitTime : String)
  | NotFound
  | StoreError (msg : String)
deriving DecidableEq

/-- One `sheet.update_cell(row, col, value)` call (1-based sheet
coordinates, as issued by the source). -/
structure WriteOp where
  row : Nat
  col : Nat
  value : String
deriving DecidableEq

/-- Body of the matched branch of `process_student_scan` (src/app.py
lines 288-313): `rowIdx` is the loop counter `i` from
`enumerate(records, start=2)`, `now` the timestamp string computed at
the match.  With string-typed status cells, Python
`not entry_status or entry_status == ""` is exactly `EntryStatus = ""`. -/
def handleMatch (now : String) (rowIdx : Nat) (r : Record) : Outcome × List WriteOp :=
  if r.EntryStatus = "" then
    (Outcome.EntryMarked r.Name r.Branch,
     [⟨rowIdx, 4, "Entered"⟩, ⟨rowIdx, 5, now⟩])
  else if r.ExitStatus = "" then
    (Outcome.ExitMarked r.Name r.Branch,
     [⟨rowIdx, 6, "Exited"⟩, ⟨rowIdx, 7, now⟩])
  else
    (Outcome.AlreadyProcessed r.Name r.Branch r.EntryTime r.ExitTime, [])

/-- The `for i, row in enumerate(records, start=2)` loop of
`process_student_scan`, with the `break` after the first match and the
`if not found` check at the end. -/
def scanLoop (qr now : String) : List Record → Nat → Outcome × List WriteOp
  | [], _ => (Outcome.NotFound, [])
  | r :: rest, i =>
    if pyStr r.ID = qr then handleMatch now i r
    else scanLoop qr now rest (i + 1)

/-- `process_student_scan(qr_data, sheet)` (src/app.py lines 279-318),
on the snapshot `records` returned by `sheet.get_all_records()`, with
`now` the timestamp string of the call.  Returns the outcome and the
list of `update_cell` writes issued, in order. -/
def process_student_scan (qr now : String) (records : List Record) : Outcome × List WriteOp :=
  scanLoop qr now records 2

/-- Index (0-based, within the snapshot) of the first record whose ID,
converted to a string, equals the identifier. -/
def firstMatchIdx (qr : String) : List Record → Option Nat
  | [] => none
  | r :: rest =>
    if pyStr r.ID = qr then some 0
    else (firstMatchIdx qr rest).map (· + 1)

/-- Written from the spec wording (§4.2 steps 2-4) for the refinement
claim about matching: select the FIRST record whose ID compared as a
string equals the identifier, then branch on its state; sheet row of a
match is its 0-based snapshot position plus 2. -/
def scanFirstMatchSpec (qr now : String) (records : List Record) : Outcome × List WriteOp :=
  match firstMatchIdx qr records with
  | none => (Outcome.NotFound, [])
  | some k => handleMatch now (k + 2) (records.getD k default)

/-- Effect of writing `v` into column `c` of a record, under the sheet
layout assumed by the source (ID, Name, Branch, EntryStatus, EntryTime,
ExitStatus, ExitTime in columns 1-7). -/
def setCol (r : Record) (c : Nat) (v : String) : Record :=
  if c = 1 then { r with ID := PyVal.str v }
  else if c = 2 then { r with Name := v }
  else if c = 3 then { r with Branch := v }
  else if c = 4 then { r with EntryStatus := v }
  else if c = 5 then { r with EntryTime := v }
  else if c = 6 then { r with ExitStatus := v }
  else if c = 7 then { r with ExitTime := v }
  else r

/-- Effect of one `update_cell` on the record list: sheet row `row`
holds record `row - 2` of the snapshot (one header row, rows 1-based). -/
def applyWrite (records : List Record) (w : WriteOp) : List Record :=
  records.set (w.row - 2) (setCol (records.getD (w.row - 2) default) w.col w.value)

/-- Effect of a sequence of `update_cell` calls, applied in order. -/
def applyWrites (records : List Record) (ws : List WriteOp) : List Record :=
  ws.foldl applyWrite records

/-- One network call against the sheet: the full-snapshot
`get_all_records()` read, or a single `update_cell` write. -/
inductive StoreCall where
  | readAll
  | write (row col : Nat) (value : String)
deriving DecidableEq

/-- Whether a store call is the full-snapshot read. -/
def StoreCall.isRead : StoreCall → Bool
  | .readAll => true
  | .write _ _ _ => false

/-- Whether a store call is a single-cell write. -/
def StoreCall.isWrite : StoreCall → Bool
  | .readAll => false
  | .write _ _ _ => true

/-- The sequence of store calls one `process_student_scan` call issues:
exactly one `get_all_records()` (line 282) followed by the
`update_cell` calls of the taken branch, in order. -/
def storeCalls (qr now : String) (records : List Record) : List StoreCall :=
  StoreCall.readAll ::
    (process_student_scan qr now records).2.map (fun w => StoreCall.write w.row w.col w.value)

/-- Whether the scan takes a writing branch: some record matches and its
state is Unprocessed (empty EntryStatus) or Entered (empty ExitStatus). -/
def matchTransitions (qr : String) (records : List Record) : Bool :=
  match firstMatchIdx qr records with
  | none => false
  | some k =>
    ((records.getD k default).EntryStatus == "") || ((records.getD k default).ExitStatus == "")

/-- Fault-injection semantics of the try/except of `process_student_scan`
(src/app.py lines 281-322): `failAt = some (n, msg)` means the n-th
store call (0 = the snapshot read, then the writes in issue order)
raises an exception with message `msg`; earlier calls succeed and their
effects stand; the except clause turns the exception into the
`Database Error` outcome.  `failAt = none` is the failure-free run.
Returns the outcome and the resulting record state of the sheet. -/
def runScanWithFailure (qr now : String) (records : List Record)
    (failAt : Option (Nat × String)) : Outcome × List Record :=
  let res := process_student_scan qr now records
  match failAt with
  | none => (res.1, applyWrites records res.2)
  | some (n, msg) =>
    if n < (storeCalls qr now records).length then
      (Outcome.StoreError msg, applyWrites records (res.2.take (n - 1)))
    else
      (res.1, applyWrites records res.2)

/-- What the cv2 `detectAndDecode` call does on a given image: return a
decoded string (empty when no QR code is found), or raise. -/
inductive DecodeAttempt where
  | ok (data : String)
  | raised (msg : String)
deriving DecidableEq

/-- `detect_qr_with_opencv(image)` (src/app.py lines 29-50):
returns None when cv2 is unavailable; otherwise returns the decoded
data when truthy (non-empty), None when empty, and None when the
library call raises (the except clause). -/
def detect_qr_with_opencv (cv2Available : Bool) (attempt : DecodeAttempt) : Option String :=
  if !cv2Available then none
  else
    match attempt with
    | .ok data => if data ≠ "" then some data else none
    | .raised _ => none

/-! Helper lemmas. -/

theorem listGetD_set_self {α : Type} [Inhabited α] (l : List α) (k : Nat) (a : α)
    (h : k < l.length) : (l.set k a).getD k default = a := by
  induction l generalizing k with
  | nil => simp at h
  | cons x xs ih =>
    cases k with
    | zero => rfl
    | succ n => simpa using ih n (by simpa using h)

theorem firstMatchIdx_eq_some (qr : String) (records : List Record) (k : Nat)
    (hk : k < records.length)
    (hmatch : pyStr (records.getD k default).ID = qr)
    (hfirst : ∀ j, j < k → pyStr (records.getD j default).ID ≠ qr) :
    firstMatchIdx qr records = some k := by
  induction records generalizing k with
  | nil => simp at hk
  | cons r rest ih =>
    cases k with
    | zero =>
      simp only [List.getD_cons_zero] at hmatch
      simp [firstMatchIdx, hmatch]
    | succ n =>
      have hr : pyStr r.ID ≠ qr := hfirst 0 (Nat.succ_pos n)
      have hrec : firstMatchIdx qr rest = some n := by
        refine ih n (by simpa using hk) (by simpa using hmatch) ?_
        intro j hj
        have := hfirst (j + 1) (Nat.succ_lt_succ hj)
        simpa using this
      simp [firstMatchIdx, hr, hrec]

theorem firstMatchIdx_eq_none (qr : String) (records : List Record)
    (h : ∀ r ∈ records, pyStr r.ID ≠ qr) :
    firstMatchIdx qr records = none := by
  induction records with
  | nil => rfl
  | cons r rest ih =>
    have hr : pyStr r.ID ≠ qr := h r (List.mem_cons_self r rest)
    have hrest := ih (fun s hs => h s (List.mem_cons_of_mem r hs))
    simp [firstMatchIdx, hr, hrest]

theorem scanLoop_eq (qr now : String) (records : List Record) (i : Nat) :
    scanLoop qr now records i =
      match firstMatchIdx qr records with
      | none => (Outcome.NotFound, [])
      | some k => handleMatch now (i + k) (records.getD k default) := by
  induction records generalizing i with
  | nil => rfl
  | cons r rest ih =>
    by_cases hr : pyStr r.ID = qr
    · simp [scanLoop, firstMatchIdx, hr]
    · simp only [scanLoop, firstMatchIdx, hr, if_false, if_neg hr]
      rw [ih (i + 1)]
      cases hfm : firstMatchIdx qr rest with
      | none => simp
      | some k =>
        simp only [Option.map_some]
        have harg : i + 1 + k = i + (k + 1) := by omega
        rw [harg]
        rfl

theorem process_student_scan_eq (qr now : String) (records : List Record) :
    process_student_scan qr now records =
      match firstMatchIdx qr records with
      | none => (Outcome.NotFound, [])
      | some k => handleMatch now (k + 2) (records.getD k default) := by
  rw [process_student_scan, scanLoop_eq]
  cases firstMatchIdx qr records with
  | none => rfl
  | some k => simp [Nat.add_comm]

theorem applyWrites_pair (records : List Record) (k c1 c2 : Nat) (v1 v2 : String)
    (hk : k < records.length) :
    applyWrites records [⟨k + 2, c1, v1⟩, ⟨k + 2, c2, v2⟩] =
      records.set k (setCol (setCol (records.getD k default) c1 v1) c2 v2) := by
  simp only [applyWrites, List.foldl, applyWrite, Nat.add_sub_cancel]
  rw [listGetD_set_self _ _ _ hk, List.set_set]

theorem process_eq_of_first (qr now : String) (records : List Record) (k : Nat)
    (hfm : firstMatchIdx qr records = some k) :
    process_student_scan qr now records =
      handleMatch now (k + 2) (records.getD k default) := by
  rw [process_student_scan_eq, hfm]

theorem process_eq_of_none (qr now : String) (records : List Record)
    (hfm : firstMatchIdx qr records = none) :
    process_student_scan qr now records = (Outcome.NotFound, []) := by
  rw [process_student_scan_eq, hfm]

/-- C1: a scan matching a record in state Unprocessed (empty EntryStatus)
returns EntryMarked with the record's Name and Branch, issues exactly the
writes EntryStatus := "Entered" and EntryTime := now on the matched row,
and the resulting store differs from the old one only in those two fields
of the matched record (ExitStatus and ExitTime unchanged). -/
theorem C1_unprocessed_scan_marks_entry (qr now : String) (records : List Record) (k : Nat)
    (hk : k < records.length)
    (hmatch : pyStr (records.getD k default).ID = qr)
    (hfirst : ∀ j, j < k → pyStr (records.getD j default).ID ≠ qr)
    (hstate : (records.getD k default).EntryStatus = "") :
    process_student_scan qr now records =
      (Outcome.EntryMarked (records.getD k default).Name (records.getD k default).Branch,
       [⟨k + 2, 4, "Entered"⟩, ⟨k + 2, 5, now⟩]) ∧
    applyWrites records (process_student_scan qr now records).2 =
      records.set k
        { records.getD k default with EntryStatus := "Entered", EntryTime := now } := by
  have hfm := firstMatchIdx_eq_some qr records k hk hmatch hfirst
  have hps : process_student_scan qr now records =
      (Outcome.EntryMarked (records.getD k default).Name (records.getD k default).Branch,
       [⟨k + 2, 4, "Entered"⟩, ⟨k + 2, 5, now⟩]) := by
    rw [process_eq_of_first qr now records k hfm]
    unfold handleMatch
    rw [if_pos hstate]
  refine ⟨hps, ?_⟩
  rw [hps, applyWrites_pair records k 4 5 "Entered" now hk]
  rfl

theorem C1_witness :
    process_student_scan "A1" "2026-01-01 09:00:00"
        [⟨PyVal.str "A1", "Jane", "CS", "", "", "", ""⟩] =
      (Outcome.EntryMarked "Jane" "CS",
       [⟨2, 4, "Entered"⟩, ⟨2, 5, "2026-01-01 09:00:00"⟩]) ∧
    applyWrites [⟨PyVal.str "A1", "Jane", "CS", "", "", "", ""⟩]
        (process_student_scan "A1" "2026-01-01 09:00:00"
          [⟨PyVal.str "A1", "Jane", "CS", "", "", "", ""⟩]).2 =
      [⟨PyVal.str "A1", "Jane", "CS", "Entered", "2026-01-01 09:00:00", "", ""⟩] :=
  C1_unprocessed_scan_marks_entry "A1" "2026-01-01 09:00:00"
    [⟨PyVal.str "A1", "Jane", "CS", "", "", "", ""⟩] 0 (by decide) rfl
    (fun j hj => absurd hj (Nat.not_lt_zero j)) rfl

/-- C2: a scan matching a record in state Entered (non-empty EntryStatus,
empty ExitStatus) returns ExitMarked with the record's Name and Branch,
issues exactly the writes ExitStatus := "Exited" and ExitTime := now on
the matched row, and the resulting store differs from the old one only in
those two fields of the matched record (EntryStatus and EntryTime
unchanged). -/
theorem C2_entered_scan_marks_exit (qr now : String) (records : List Record) (k : Nat)
    (hk : k < records.length)
    (hmatch : pyStr (records.getD k default).ID = qr)
    (hfirst : ∀ j, j < k → pyStr (records.getD j default).ID ≠ qr)
    (hentry : (records.getD k default).EntryStatus ≠ "")
    (hexit : (records.getD k default).ExitStatus = "") :
    process_student_scan qr now records =
      (Outcome.ExitMarked (records.getD k default).Name (records.getD k default).Branch,
       [⟨k + 2, 6, "Exited"⟩, ⟨k + 2, 7, now⟩]) ∧
    applyWrites records (process_student_scan qr now records).2 =
      records.set k
        { records.getD k default with ExitStatus := "Exited", ExitTime := now } := by
  have hfm := firstMatchIdx_eq_some qr records k hk hmatch hfirst
  have hps : process_student_scan qr now records =
      (Outcome.ExitMarked (records.getD k default).Name (records.getD k default).Branch,
       [⟨k + 2, 6, "Exited"⟩, ⟨k + 2, 7, now⟩]) := by
    rw [process_eq_of_first qr now records k hfm]
    unfold handleMatch
    rw [if_neg hentry, if_pos hexit]
  refine ⟨hps, ?_⟩
  rw [hps, applyWrites_pair records k 6 7 "Exited" now hk]
  rfl

theorem C2_witness :
    process_student_scan "A1" "2026-01-01 17:00:00"
        [⟨PyVal.str "A1", "Jane", "CS", "Entered", "2026-01-01 09:00:00", "", ""⟩] =
      (Outcome.ExitMarked "Jane" "CS",
       [⟨2, 6, "Exited"⟩, ⟨2, 7, "2026-01-01 17:00:00"⟩]) ∧
    applyWrites [⟨PyVal.str "A1", "Jane", "CS", "Entered", "2026-01-01 09:00:00", "", ""⟩]
        (process_student_scan "A1" "2026-01-01 17:00:00"
          [⟨PyVal.str "A1", "Jane", "CS", "Entered", "2026-01-01 09:00:00", "", ""⟩]).2 =
      [⟨PyVal.str "A1", "Jane", "CS", "Entered", "2026-01-01 09:00:00",
        "Exited", "2026-01-01 17:00:00"⟩] :=
  C2_entered_scan_marks_exit "A1" "2026-01-01 17:00:00"
    [⟨PyVal.str "A1", "Jane", "CS", "Entered", "2026-01-01 09:00:00", "", ""⟩] 0
    (by decide) rfl (fun j hj => absurd hj (Nat.not_lt_zero j)) (by decide) rfl

/-- C3: a scan matching a record in state Completed (both statuses
non-empty) issues no writes, leaves the store unchanged, and returns
AlreadyProcessed with the record's recorded EntryTime and ExitTime;
since the store is unchanged, repeated such calls are idempotent. -/
theorem C3_completed_scan_idempotent (qr now : String) (records : List Record) (k : Nat)
    (hk : k < records.length)
    (hmatch : pyStr (records.getD k default).ID = qr)
    (hfirst : ∀ j, j < k → pyStr (records.getD j default).ID ≠ qr)
    (hentry : (records.getD k default).EntryStatus ≠ "")
    (hexit : (records.getD k default).ExitStatus ≠ "") :
    process_student_scan qr now records =
      (Outcome.AlreadyProcessed (records.getD k default).Name (records.getD k default).Branch
        (records.getD k default).EntryTime (records.getD k default).ExitTime, []) ∧
    applyWrites records (process_student_scan qr now records).2 = records := by
  have hfm := firstMatchIdx_eq_some qr records k hk hmatch hfirst
  have hps : process_student_scan qr now records =
      (Outcome.AlreadyProcessed (records.getD k default).Name (records.getD k default).Branch
        (records.getD k default).EntryTime (records.getD k default).ExitTime, []) := by
    rw [process_eq_of_first qr now records k hfm]
    unfold handleMatch
    rw [if_neg hentry, if_neg hexit]
  exact ⟨hps, by rw [hps]; rfl⟩

theorem C3_witness :
    process_student_scan "A1" "2026-01-02 08:00:00"
        [⟨PyVal.str "A1", "Jane", "CS", "Entered", "2026-01-01 09:00:00",
          "Exited", "2026-01-01 17:00:00"⟩] =
      (Outcome.AlreadyProcessed "Jane" "CS" "2026-01-01 09:00:00" "2026-01-01 17:00:00", []) ∧
    applyWrites [⟨PyVal.str "A1", "Jane", "CS", "Entered", "2026-01-01 09:00:00",
          "Exited", "2026-01-01 17:00:00"⟩]
        (process_student_scan "A1" "2026-01-02 08:00:00"
          [⟨PyVal.str "A1", "Jane", "CS", "Entered", "2026-01-01 09:00:00",
            "Exited", "2026-01-01 17:00:00"⟩]).2 =
      [⟨PyVal.str "A1", "Jane", "CS", "Entered", "2026-01-01 09:00:00",
        "Exited", "2026-01-01 17:00:00"⟩] :=
  C3_completed_scan_idempotent "A1" "2026-01-02 08:00:00"
    [⟨PyVal.str "A1", "Jane", "CS", "Entered", "2026-01-01 09:00:00",
      "Exited", "2026-01-01 17:00:00"⟩] 0
    (by decide) rfl (fun j hj => absurd hj (Nat.not_lt_zero j)) (by decide) (by decide)

/-- C4: when no record's ID, compared as a string, equals the identifier,
the scan returns NotFound, issues no writes, and leaves the store
unchanged. -/
theorem C4_no_match_not_found (qr now : String) (records : List Record)
    (h : ∀ r ∈ records, pyStr r.ID ≠ qr) :
    process_student_scan qr now records = (Outcome.NotFound, []) ∧
    applyWrites records (process_student_scan qr now records).2 = records := by
  have hps := process_eq_of_none qr now records (firstMatchIdx_eq_none qr records h)
  exact ⟨hps, by rw [hps]; rfl⟩

theorem C4_witness :
    process_student_scan "B9" "2026-01-01 09:00:00"
        [⟨PyVal.str "A1", "Jane", "CS", "", "", "", ""⟩] =
      (Outcome.NotFound, []) ∧
    applyWrites [⟨PyVal.str "A1", "Jane", "CS", "", "", "", ""⟩]
        (process_student_scan "B9" "2026-01-01 09:00:00"
          [⟨PyVal.str "A1", "Jane", "CS", "", "", "", ""⟩]).2 =
      [⟨PyVal.str "A1", "Jane", "CS", "", "", "", ""⟩] :=
  C4_no_match_not_found "B9" "2026-01-01 09:00:00"
    [⟨PyVal.str "A1", "Jane", "CS", "", "", "", ""⟩] (by decide)

/-- C5: the scan is exactly first-match-wins selection under
string-represented ID equality — `process_student_scan` coincides with
the specification-side function that picks the first record whose ID,
converted to a string, equals the identifier (so with duplicate IDs only
the first record in store order is touched) — and a numeric stored ID
12345 string-converts to "12345", hence matches that scanned string. -/
theorem C5_first_match_string_equality (qr now : String) (records : List Record) :
    process_student_scan qr now records = scanFirstMatchSpec qr now records ∧
    pyStr (PyVal.int 12345) = "12345" :=
  ⟨(process_student_scan_eq qr now records).trans rfl, rfl⟩

theorem scan_writes_length (qr now : String) (records : List Record) :
    (process_student_scan qr now records).2.length =
      if matchTransitions qr records then 2 else 0 := by
  rw [process_student_scan_eq]
  unfold matchTransitions
  cases hfm : firstMatchIdx qr records with
  | none => rfl
  | some k =>
    simp only [handleMatch, Bool.or_eq_true, beq_iff_eq]
    by_cases h1 : (records.getD k default).EntryStatus = ""
    · rw [if_pos h1, if_pos (Or.inl h1)]
      rfl
    · by_cases h2 : (records.getD k default).ExitStatus = ""
      · rw [if_neg h1, if_pos h2, if_pos (Or.inr h2)]
        rfl
      · have hcond : ¬((records.getD k default).EntryStatus = "" ∨
            (records.getD k default).ExitStatus = "") := by
          rintro (h | h)
          · exact h1 h
          · exact h2 h
        rw [if_neg h1, if_neg h2, if_neg hcond]
        rfl

/-- C6: one scan issues exactly one full-snapshot read; it issues exactly
two single-cell writes when the first matching record is in a writing
state (empty EntryStatus or empty ExitStatus) and zero writes otherwise
(Completed match or no match). -/
theorem C6_one_read_exact_write_count (qr now : String) (records : List Record) :
    (storeCalls qr now records).countP StoreCall.isRead = 1 ∧
    (storeCalls qr now records).countP StoreCall.isWrite =
      (if matchTransitions qr records then 2 else 0) := by
  constructor
  · simp [storeCalls, List.countP_cons, List.countP_map, Function.comp, StoreCall.isRead]
  · rw [← scan_writes_length qr now records]
    simp [storeCalls, List.countP_cons, List.countP_map, Function.comp, StoreCall.isWrite,
      List.countP_true]

/-- C7 counterexample: with a single Unprocessed record, a failure on
store call 2 (the EntryTime write, after the EntryStatus write
succeeded) surfaces as StoreError — but the store is NOT as it was
before the call: the status cell is already updated while the time cell
is not, refuting the claim that a transition is never partially
applied. -/
theorem C7_counterexample :
    runScanWithFailure "A1" "2026-01-01 09:00:00"
        [⟨PyVal.str "A1", "Jane", "CS", "", "", "", ""⟩] (some (2, "boom")) =
      (Outcome.StoreError "boom",
       [⟨PyVal.str "A1", "Jane", "CS", "Entered", "", "", ""⟩]) ∧
    [(⟨PyVal.str "A1", "Jane", "CS", "Entered", "", "", ""⟩ : Record)] ≠
      [⟨PyVal.str "A1", "Jane", "CS", "", "", "", ""⟩] := by
  constructor
  · rfl
  · decide

/-- C7 amended: a failure on any store call during the scan is caught and
surfaces as StoreError with the failure message, nothing is retried, and
the resulting store reflects exactly the writes issued strictly before
the failing call — a prefix of the transition's writes, so a transition
MAY be left partially applied (status written, time not). -/
theorem C7_failure_store_error_prefix_writes (qr now : String) (records : List Record)
    (n : Nat) (msg : String) (h : n < (storeCalls qr now records).length) :
    runScanWithFailure qr now records (some (n, msg)) =
      (Outcome.StoreError msg,
       applyWrites records ((process_student_scan qr now records).2.take (n - 1))) := by
  simp [runScanWithFailure, h]

theorem C7_witness :
    1 < (storeCalls "A1" "2026-01-01 09:00:00"
          [⟨PyVal.str "A1", "Jane", "CS", "", "", "", ""⟩]).length ∧
    runScanWithFailure "A1" "2026-01-01 09:00:00"
        [⟨PyVal.str "A1", "Jane", "CS", "", "", "", ""⟩] (some (1, "quota")) =
      (Outcome.StoreError "quota",
       applyWrites [⟨PyVal.str "A1", "Jane", "CS", "", "", "", ""⟩]
         ((process_student_scan "A1" "2026-01-01 09:00:00"
             [⟨PyVal.str "A1", "Jane", "CS", "", "", "", ""⟩]).2.take 0)) :=
  ⟨by decide,
   C7_failure_store_error_prefix_writes "A1" "2026-01-01 09:00:00"
     [⟨PyVal.str "A1", "Jane", "CS", "", "", "", ""⟩] 1 "quota" (by decide)⟩

/-- C8: the decoder adapter always yields either one decoded payload or
absence — when the decode library raises it returns none, when the
library is unavailable it returns none, and whenever it returns a
payload, that payload is exactly the (non-empty) string the library
decoded; no failure is ever raised to the caller (the function is
total). -/
theorem C8_decoder_failure_yields_none :
    ∀ (avail : Bool) (att : DecodeAttempt) (msg : String),
      detect_qr_with_opencv avail (DecodeAttempt.raised msg) = none ∧
      detect_qr_with_opencv false att = none ∧
      (detect_qr_with_opencv avail att = none ∨
        ∃ s, att = DecodeAttempt.ok s ∧ s ≠ "" ∧
          detect_qr_with_opencv avail att = some s) := by
  intro avail att msg
  refine ⟨?_, rfl, ?_⟩
  · cases avail <;> rfl
  · cases avail with
    | false => exact Or.inl rfl
    | true =>
      cases att with
      | raised m => exact Or.inl rfl
      | ok s =>
        by_cases hs : s = ""
        · exact Or.inl (by simp [detect_qr_with_opencv, hs])
        · exact Or.inr ⟨s, rfl, hs, by simp [detect_qr_with_opencv, hs]⟩

/-- C9: the branch taken by the scan depends only on emptiness of the
status cells: a matched record with empty EntryStatus gets its entry
marked whatever its ExitStatus holds (even "Exited"), and a matched
record with any non-empty EntryStatus (not only "Entered") and empty
ExitStatus gets its exit marked. -/
theorem C9_branch_depends_only_on_emptiness (qr now : String) (records : List Record)
    (k : Nat) (hk : k < records.length)
    (hmatch : pyStr (records.getD k default).ID = qr)
    (hfirst : ∀ j, j < k → pyStr (records.getD j default).ID ≠ qr) :
    ((records.getD k default).EntryStatus = "" →
      (process_student_scan qr now records).1 =
        Outcome.EntryMarked (records.getD k default).Name (records.getD k default).Branch) ∧
    ((records.getD k default).EntryStatus ≠ "" →
      (records.getD k default).ExitStatus = "" →
      (process_student_scan qr now records).1 =
        Outcome.ExitMarked (records.getD k default).Name (records.getD k default).Branch) := by
  have hfm := firstMatchIdx_eq_some qr records k hk hmatch hfirst
  rw [process_eq_of_first qr now records k hfm]
  constructor
  · intro h1
    unfold handleMatch
    rw [if_pos h1]
  · intro h1 h2
    unfold handleMatch
    rw [if_neg h1, if_pos h2]

theorem C9_witness :
    (process_student_scan "A1" "2026-01-01 09:00:00"
        [⟨PyVal.str "A1", "Jane", "CS", "", "", "Exited", "x"⟩]).1 =
      Outcome.EntryMarked "Jane" "CS" ∧
    (process_student_scan "A1" "2026-01-01 09:00:00"
        [⟨PyVal.str "A1", "Jane", "CS", "Pending", "p", "", ""⟩]).1 =
      Outcome.ExitMarked "Jane" "CS" :=
  ⟨(C9_branch_depends_only_on_emptiness "A1" "2026-01-01 09:00:00"
      [⟨PyVal.str "A1", "Jane", "CS", "", "", "Exited", "x"⟩] 0 (by decide) rfl
      (fun j hj => absurd hj (Nat.not_lt_zero j))).1 rfl,
   (C9_branch_depends_only_on_emptiness "A1" "2026-01-01 09:00:00"
      [⟨PyVal.str "A1", "Jane", "CS", "Pending", "p", "", ""⟩] 0 (by decide) rfl
      (fun j hj => absurd hj (Nat.not_lt_zero j))).2 (by decide) rfl⟩

/-- C10: every write a scan issues targets sheet row k + 2 where k is
the 0-based snapshot position of the first matching record, and one of
the fixed columns 4 (value "Entered"), 5 (the timestamp), 6 (value
"Exited"), 7 (the timestamp) — coordinates fixed by the code, not by any
header lookup. -/
theorem C10_write_fixed_coordinates (qr now : String) (records : List Record) (w : WriteOp)
    (hw : w ∈ (process_student_scan qr now records).2) :
    ∃ k, firstMatchIdx qr records = some k ∧ w.row = k + 2 ∧
      ((w.col = 4 ∧ w.value = "Entered") ∨ (w.col = 5 ∧ w.value = now) ∨
       (w.col = 6 ∧ w.value = "Exited") ∨ (w.col = 7 ∧ w.value = now)) := by
  cases hfm : firstMatchIdx qr records with
  | none =>
    rw [process_eq_of_none qr now records hfm] at hw
    simp at hw
  | some k =>
    rw [process_eq_of_first qr now records k hfm] at hw
    refine ⟨k, rfl, ?_⟩
    unfold handleMatch at hw
    by_cases h1 : (records.getD k default).EntryStatus = ""
    · rw [if_pos h1] at hw
      simp only [List.mem_cons, List.not_mem_nil, or_false] at hw
      rcases hw with h | h <;> subst h <;> simp
    · rw [if_neg h1] at hw
      by_cases h2 : (records.getD k default).ExitStatus = ""
      · rw [if_pos h2] at hw
        simp only [List.mem_cons, List.not_mem_nil, or_false] at hw
        rcases hw with h | h <;> subst h <;> simp
      · rw [if_neg h2] at hw
        simp at hw

theorem C10_witness :
    ∃ k, firstMatchIdx "A1" [⟨PyVal.str "A1", "Jane", "CS", "", "", "", ""⟩] = some k ∧
      (⟨2, 4, "Entered"⟩ : WriteOp).row = k + 2 ∧
      (((⟨2, 4, "Entered"⟩ : WriteOp).col = 4 ∧
          (⟨2, 4, "Entered"⟩ : WriteOp).value = "Entered") ∨
       ((⟨2, 4, "Entered"⟩ : WriteOp).col = 5 ∧
          (⟨2, 4, "Entered"⟩ : WriteOp).value = "2026-01-01 09:00:00") ∨
       ((⟨2, 4, "Entered"⟩ : WriteOp).col = 6 ∧
          (⟨2, 4, "Entered"⟩ : WriteOp).value = "Exited") ∨
       ((⟨2, 4, "Entered"⟩ : WriteOp).col = 7 ∧
          (⟨2, 4, "Entered"⟩ : WriteOp).value = "2026-01-01 09:00:00")) :=
  C10_write_fixed_coordinates "A1" "2026-01-01 09:00:00"
    [⟨PyVal.str "A1", "Jane", "CS", "", "", "", ""⟩] ⟨2, 4, "Entered"⟩ (by decide)
